import Mathlib

/-!
Verification of the Observer/Observable reactive-stream core of this
repository (the generic variant; the other two source files contain the
same logic with loosened types).

Modelling choices, shared by all development below:

* Consumer-supplied handlers (`next`, `error`, `complete`) and teardown
  functions are modelled as passive event emitters: invoking one appends
  an `Event` to the run's trace.  This matches the repository's own
  handlers (which only log or return values the core discards) and the
  spec's "counting handler" verification style.  Only the *presence* of
  a handler matters to the core's control flow, so a handler record is a
  triple of Booleans, while each handler invocation is recorded in the
  trace together with its argument.
* Teardown functions are identified by a `Nat` id so that distinct
  registrations can be told apart in the trace.
* Every Observer method returns the updated observer state together
  with the list of events emitted during the call, in order.
* A producer may throw; this is modelled with `Except`, recording the
  state and events produced before the throw.
-/

namespace Rx

/-- An observable event of a run: one of the three supplied handlers
being invoked (with its argument), or a registered teardown function's
body executing (identified by the teardown's id). -/
inductive Event (T E : Type) where
  | nextCall (v : T)
  | errorCall (e : E)
  | completeCall
  | teardownRun (id : Nat)
  deriving DecidableEq

/-- `IObserverHandlers<T>`: which of the three optional callbacks were
supplied at construction.  The record itself is never mutated. -/
structure IObserverHandlers where
  hasNext : Bool
  hasError : Bool
  hasComplete : Bool
  deriving DecidableEq

/-- The state of a `class Observer<T>` object: the handler record, the
`isUnsubscribed` flag and the `_unsubscribe` teardown slot, where
`none` models the slot holding `undefined`. -/
structure Observer (T E : Type) where
  handlers : IObserverHandlers
  isUnsubscribed : Bool
  teardownSlot : Option Nat
  deriving DecidableEq

variable {T E : Type}

/-- `new Observer(handlers)`: stores the handler record, sets
`isUnsubscribed` to `false`; the `_unsubscribe` slot starts
`undefined`. -/
def Observer.fresh (hs : IObserverHandlers) : Observer T E :=
  { handlers := hs, isUnsubscribed := false, teardownSlot := none }

/-- `next(value)`: `if (this.handlers.next && !this.isUnsubscribed)`
invoke the `next` handler with `value`; otherwise do nothing.  The
observer's own fields are not written. -/
def Observer.next (o : Observer T E) (v : T) : Observer T E × List (Event T E) :=
  if o.handlers.hasNext && !o.isUnsubscribed then (o, [Event.nextCall v]) else (o, [])

/-- The events of the conditional call `if (this._unsubscribe) {
this._unsubscribe(); }` inside `unsubscribe()`: the registered teardown
body runs when the slot is set, nothing happens when it is
`undefined`. -/
def teardownEvents (o : Observer T E) : List (Event T E) :=
  match o.teardownSlot with
  | some id => [Event.teardownRun id]
  | none => []

/-- `unsubscribe()`: unconditionally sets `isUnsubscribed = true`, then
invokes `this._unsubscribe()` if the slot is set.  Note the source has
no guard on an already-set flag: the body runs the same way on every
call. -/
def Observer.unsubscribe (o : Observer T E) : Observer T E × List (Event T E) :=
  ({ o with isUnsubscribed := true }, teardownEvents o)

/-- `error(error)`: `if (!this.isUnsubscribed)`: invoke the `error`
handler if present, then `this.unsubscribe()`.  Otherwise nothing. -/
def Observer.error (o : Observer T E) (err : E) : Observer T E × List (Event T E) :=
  if !o.isUnsubscribed then
    ((o.unsubscribe).1,
      (if o.handlers.hasError then [Event.errorCall err] else []) ++ (o.unsubscribe).2)
  else (o, [])

/-- `complete()`: `if (!this.isUnsubscribed)`: invoke the `complete`
handler if present, then `this.unsubscribe()`.  Otherwise nothing. -/
def Observer.complete (o : Observer T E) : Observer T E × List (Event T E) :=
  if !o.isUnsubscribed then
    ((o.unsubscribe).1,
      (if o.handlers.hasComplete then [Event.completeCall] else []) ++ (o.unsubscribe).2)
  else (o, [])

/-- `setUnsubscribe(unsubscribeFn?)`: `this._unsubscribe =
unsubscribeFn;` — stores the argument in the slot and does nothing
else; in particular it emits no event (it never calls the stored or the
incoming function). -/
def Observer.setUnsubscribe (o : Observer T E) (fn : Option Nat) :
    Observer T E × List (Event T E) :=
  ({ o with teardownSlot := fn }, [])

/-- The producer's return value as far as `subscribe` inspects it: a
function value (a teardown, identified by id), or any non-function
value such as `undefined`. -/
inductive ProdReturn where
  | fn (id : Nat)
  | nonFn
  deriving DecidableEq

/-- `typeof unsubscribeFn === "function" ? unsubscribeFn : undefined`. -/
def ProdReturn.toSlot : ProdReturn → Option Nat
  | .fn id => some id
  | .nonFn => none

/-- One producer invocation on an observer: the observer state it
leaves behind, the events emitted during the call, and either the
producer's return value or the exception it threw. -/
abbrev ProducerRun (T E : Type) := Observer T E × List (Event T E) × Except E ProdReturn

/-- `class Observable<T>`: stores the producer function `_subscribe`
once at construction and never mutates it. -/
structure Observable (T E : Type) where
  _subscribe : Observer T E → ProducerRun T E

/-- The `values.forEach((value) => observer.next(value))` loop of
`Observable.from`: thread the observer through `next` for each value,
accumulating the emitted events in order. -/
def emitAll (o : Observer T E) (acc : List (Event T E)) :
    List T → Observer T E × List (Event T E)
  | [] => (o, acc)
  | v :: vs => emitAll (o.next v).1 (acc ++ (o.next v).2) vs

/-- Id of the teardown `() => console.log("unsubscribed")` that the
`from` producer returns. -/
def fromTeardownId : Nat := 0

/-- `static from<T>(values)` (named `fromList` because `from` is a Lean
keyword): an Observable whose producer emits every value via `next`, in
order, then calls `observer.complete()`, and returns the logging
teardown function. -/
def Observable.fromList (values : List T) : Observable T E :=
  { _subscribe := fun observer =>
      (((emitAll observer [] values).1.complete).1,
        (emitAll observer [] values).2 ++ ((emitAll observer [] values).1.complete).2,
        Except.ok (ProdReturn.fn fromTeardownId)) }

/-- `subscribe(obs)`: construct a fresh Observer, invoke the producer
with it (a thrown exception propagates to the caller before
`setUnsubscribe` is reached), then register the returned teardown if it
is a function, `undefined` otherwise.  The result is the trace of
events emitted before `subscribe` returned, and either the observer the
returned subscription handle closes over (its `unsubscribe()`
delegates to `Observer.unsubscribe`) or the propagated exception. -/
def Observable.subscribe (self : Observable T E) (hs : IObserverHandlers) :
    List (Event T E) × Except E (Observer T E) :=
  match self._subscribe (Observer.fresh hs) with
  | (_, evs, Except.error e) => (evs, Except.error e)
  | (o1, evs, Except.ok ret) =>
      (evs ++ (o1.setUnsubscribe ret.toSlot).2, Except.ok (o1.setUnsubscribe ret.toSlot).1)

/-- The operations a client or producer can perform on one observer
object after it exists. -/
inductive Op (T E : Type) where
  | next (v : T)
  | error (e : E)
  | complete
  | unsubscribe
  | setUnsubscribe (fn : Option Nat)
  deriving DecidableEq

/-- Dispatch one operation to the corresponding Observer method. -/
def applyOp (o : Observer T E) : Op T E → Observer T E × List (Event T E)
  | .next v => o.next v
  | .error e => o.error e
  | .complete => o.complete
  | .unsubscribe => o.unsubscribe
  | .setUnsubscribe fn => o.setUnsubscribe fn

/-- Run a sequence of operations on an observer, concatenating the
emitted events in order. -/
def runOps (o : Observer T E) : List (Op T E) → Observer T E × List (Event T E)
  | [] => (o, [])
  | op :: ops =>
      ((runOps (applyOp o op).1 ops).1,
        (applyOp o op).2 ++ (runOps (applyOp o op).1 ops).2)

/-- The three operations the spec calls terminal transitions. -/
def Op.isTerminal : Op T E → Bool
  | .error _ => true
  | .complete => true
  | .unsubscribe => true
  | _ => false

/-- Result of a subscription performed against an explicit store of
live observer objects: the updated store, the index (object identity)
of the observer this subscription allocated, the trace emitted before
`subscribe` returned, and the exception if the producer threw. -/
structure SubResultW (T E : Type) where
  world : List (Observer T E)
  id : Nat
  trace : List (Event T E)
  threw : Option E

/-- `subscribe` against an explicit object store: `new Observer(...)`
allocates a fresh object (appended at the end of the store); the
producer receives only that object; the teardown registration writes
only to it. -/
def subscribeW (self : Observable T E) (hs : IObserverHandlers)
    (w : List (Observer T E)) : SubResultW T E :=
  match self._subscribe (Observer.fresh hs) with
  | (o1, evs, Except.error e) =>
      { world := w ++ [o1], id := w.length, trace := evs, threw := some e }
  | (o1, evs, Except.ok ret) =>
      { world := w ++ [(o1.setUnsubscribe ret.toSlot).1], id := w.length,
        trace := evs ++ (o1.setUnsubscribe ret.toSlot).2, threw := none }

/-- A subscription handle's `unsubscribe()` against the explicit store:
it delegates to `Observer.unsubscribe` on the one object it closes
over, writing back only that slot. -/
def unsubscribeAtW (w : List (Observer T E)) (i : Nat) :
    List (Observer T E) × List (Event T E) :=
  match w[i]? with
  | some o => (w.set i (o.unsubscribe).1, (o.unsubscribe).2)
  | none => (w, [])

/-- A handler record supplying all three callbacks, as the repository's
own subscription does. -/
def allHandlers : IObserverHandlers :=
  { hasNext := true, hasError := true, hasComplete := true }

/-- A producer that terminates its observer synchronously — it calls
`observer.complete()` during the producer call — and then returns a
teardown function (id 5). -/
def syncCompleteObservable : Observable Nat Nat :=
  { _subscribe := fun observer =>
      ((observer.complete).1, (observer.complete).2, Except.ok (ProdReturn.fn 5)) }

/-- A producer that throws synchronously (exception value 42) without
touching its observer. -/
def throwingObservable : Observable Nat Nat :=
  { _subscribe := fun observer => (observer, [], Except.error 42) }

/-- A producer that returns a non-function value (e.g. `undefined`)
without touching its observer. -/
def nonFnObservable : Observable Nat Nat :=
  { _subscribe := fun observer => (observer, [], Except.ok ProdReturn.nonFn) }

/-- A live observer with all handlers supplied and a teardown (id 9)
registered, not yet unsubscribed. -/
def c5Observer : Observer Nat Nat :=
  { handlers := allHandlers, isUnsubscribed := false, teardownSlot := some 9 }

/-- A freshly constructed observer over `Nat` values and errors with
all handlers supplied. -/
def freshNatObserver : Observer Nat Nat := Observer.fresh allHandlers

/-- `next` never writes the observer's fields: both branches return the
receiver unchanged. -/
theorem next_fst (o : Observer T E) (v : T) : (o.next v).1 = o := by
  unfold Observer.next
  split <;> rfl

/-- Every observer operation preserves a set `isUnsubscribed` flag: the
flag is never reset to `false`. -/
theorem applyOp_mono (o : Observer T E) (op : Op T E) (h : o.isUnsubscribed = true) :
    ((applyOp o op).1).isUnsubscribed = true := by
  cases op with
  | next v => simp [applyOp, next_fst, h]
  | error e => simp [applyOp, Observer.error, h]
  | complete => simp [applyOp, Observer.complete, h]
  | unsubscribe => rfl
  | setUnsubscribe fn => exact h

/-- Once the flag is set, no single operation can invoke the `next`
handler. -/
theorem applyOp_no_nextCall (o : Observer T E) (op : Op T E)
    (h : o.isUnsubscribed = true) (v : T) :
    Event.nextCall v ∉ (applyOp o op).2 := by
  cases op with
  | next w => simp [applyOp, Observer.next, h]
  | error e => simp [applyOp, Observer.error, h]
  | complete => simp [applyOp, Observer.complete, h]
  | unsubscribe =>
      cases hts : o.teardownSlot <;>
        simp [applyOp, Observer.unsubscribe, teardownEvents, hts]
  | setUnsubscribe fn => simp [applyOp, Observer.setUnsubscribe]

/-- Once the flag is set, no sequence of operations can invoke the
`next` handler. -/
theorem runOps_no_nextCall (o : Observer T E) (ops : List (Op T E))
    (h : o.isUnsubscribed = true) (v : T) :
    Event.nextCall v ∉ (runOps o ops).2 := by
  induction ops generalizing o with
  | nil => simp [runOps]
  | cons op ops ih =>
      simp only [runOps, List.mem_append, not_or]
      exact ⟨applyOp_no_nextCall o op h v, ih _ (applyOp_mono o op h)⟩

/-- Each of `error`, `complete` and `unsubscribe` leaves the flag set,
from any starting state. -/
theorem applyOp_terminal_sets_flag (o : Observer T E) (t : Op T E)
    (ht : t.isTerminal = true) :
    ((applyOp o t).1).isUnsubscribed = true := by
  cases t with
  | next v => simp [Op.isTerminal] at ht
  | setUnsubscribe fn => simp [Op.isTerminal] at ht
  | error e => cases h : o.isUnsubscribed <;>
      simp [applyOp, Observer.error, Observer.unsubscribe, h]
  | complete => cases h : o.isUnsubscribed <;>
      simp [applyOp, Observer.complete, Observer.unsubscribe, h]
  | unsubscribe => rfl

/-- Closed form of the `forEach` emission loop: the observer comes back
unchanged, and the events are one `nextCall` per value, in order, when
a `next` handler is present and the observer is live; none otherwise. -/
theorem emitAll_eq (o : Observer T E) (acc : List (Event T E)) (vs : List T) :
    emitAll o acc vs =
      (o, acc ++ (if o.handlers.hasNext && !o.isUnsubscribed
                  then vs.map Event.nextCall else [])) := by
  induction vs generalizing acc with
  | nil => simp [emitAll]
  | cons v vs ih =>
      cases hc : o.handlers.hasNext && !o.isUnsubscribed <;>
        simp [emitAll, Observer.next, hc, ih]

/-- Allocation anatomy of a store-level subscription: it allocates at
index `w.length`, appends exactly what it would append in the empty
store, and emits the trace it would emit in the empty store — both are
determined by the observable and this subscription's handlers alone. -/
theorem subscribeW_parts (self : Observable T E) (hs : IObserverHandlers)
    (w : List (Observer T E)) :
    (subscribeW self hs w).id = w.length ∧
    (subscribeW self hs w).world.length = w.length + 1 ∧
    (subscribeW self hs w).world = w ++ (subscribeW self hs []).world ∧
    (subscribeW self hs w).trace = (subscribeW self hs []).trace := by
  rcases h : self._subscribe (Observer.fresh hs) with ⟨o1, evs, r⟩
  unfold subscribeW
  rw [h]
  cases r <;> simp

/-- Store-level unsubscribe writes only the slot it targets. -/
theorem unsubscribeAtW_frame (w : List (Observer T E)) (i j : Nat) (hij : i ≠ j) :
    (unsubscribeAtW w i).1[j]? = w[j]? := by
  unfold unsubscribeAtW
  cases h : w[i]? with
  | none => rfl
  | some o => simp [List.getElem?_set_ne hij]

/-- C1: the claim that `unsubscribe()` is idempotent with the teardown
running exactly once FAILS on the code.  `unsubscribe()` has no guard
on an already-set flag, so each call re-invokes the registered
teardown.  Concretely, on the repository's own subscription (a
`from`-observable with all handlers): `subscribe` returns the observer
holding the registered teardown, and each of two consecutive
`unsubscribe()` calls on it runs the teardown again, for two runs in
total instead of one. -/
theorem unsubscribe_reruns_teardown :
    ((Observable.fromList [1, 2] : Observable Nat Nat).subscribe allHandlers).2 =
      Except.ok { handlers := allHandlers, isUnsubscribed := true,
                  teardownSlot := some fromTeardownId } ∧
    (({ handlers := allHandlers, isUnsubscribed := true,
        teardownSlot := some fromTeardownId } : Observer Nat Nat).unsubscribe).2 =
      [Event.teardownRun fromTeardownId] ∧
    ((({ handlers := allHandlers, isUnsubscribed := true,
         teardownSlot := some fromTeardownId } : Observer Nat Nat).unsubscribe).1.unsubscribe).2 =
      [Event.teardownRun fromTeardownId] :=
  ⟨rfl, rfl, rfl⟩

/-- C2: the claim that a teardown registered on an already-unsubscribed
observer is immediately invoked FAILS on the code.  `setUnsubscribe`
only stores its argument.  Concretely, for a producer that calls
`complete()` and then returns a teardown (id 5): the trace of
`subscribe` contains the `complete` handler call but no run of teardown
5, and the observer comes back already unsubscribed with teardown 5
merely stored in its slot. -/
theorem teardown_stored_not_run_after_sync_complete :
    (syncCompleteObservable.subscribe allHandlers).1 = [Event.completeCall] ∧
    (syncCompleteObservable.subscribe allHandlers).2 =
      Except.ok { handlers := allHandlers, isUnsubscribed := true, teardownSlot := some 5 } :=
  ⟨rfl, rfl⟩

/-- C3: subscribing to `from(S)` invokes the `next` handler exactly
once per element of `S`, in `S`'s order, followed by exactly one
`complete` handler invocation, all within the trace `subscribe`
produces before returning (for every handler set: a handler that was
not supplied is simply never invoked). -/
theorem fromList_subscribe_trace (values : List T) (hs : IObserverHandlers) :
    ((Observable.fromList values : Observable T E).subscribe hs).1 =
      (if hs.hasNext then values.map Event.nextCall else []) ++
      (if hs.hasComplete then [Event.completeCall] else []) := by
  unfold Observable.subscribe Observable.fromList
  simp only [emitAll_eq, Observer.fresh, Observer.complete, Observer.unsubscribe,
    teardownEvents, Observer.setUnsubscribe]
  cases hs.hasNext <;> cases hs.hasComplete <;> simp

/-- C4: once a terminal operation (`error`, `complete` or
`unsubscribe`) has been applied to any observer — including
`unsubscribe()` on a fresh one — no subsequent sequence of operations
ever invokes the `next` handler again. -/
theorem no_next_after_terminal (o : Observer T E) (t : Op T E) (ht : t.isTerminal = true)
    (ops : List (Op T E)) (v : T) :
    Event.nextCall v ∉ (runOps (applyOp o t).1 ops).2 :=
  runOps_no_nextCall _ ops (applyOp_terminal_sets_flag o t ht) v

/-- Witness for C4: unsubscribing a fresh observer, then pushing two
values, never invokes the `next` handler. -/
theorem no_next_after_terminal_witness :
    Event.nextCall 3 ∉
      (runOps (applyOp (Observer.fresh allHandlers : Observer Nat Nat) Op.unsubscribe).1
        [Op.next 3, Op.next 4]).2 :=
  no_next_after_terminal (Observer.fresh allHandlers) Op.unsubscribe rfl
    [Op.next 3, Op.next 4] 3

/-- C5: on a not-yet-unsubscribed observer, `error(err)` invokes the
`error` handler exactly once with `err` when supplied (nothing when
not), then transitions to unsubscribed, running the teardown side
effect (`teardownEvents`) either way; a second `error` call after
termination is a no-op.  `complete()` behaves symmetrically. -/
theorem error_complete_contract (o : Observer T E) (err err2 : E)
    (h : o.isUnsubscribed = false) :
    o.error err = ({ o with isUnsubscribed := true },
        (if o.handlers.hasError then [Event.errorCall err] else []) ++ teardownEvents o) ∧
    ((o.error err).1).error err2 = ((o.error err).1, []) ∧
    o.complete = ({ o with isUnsubscribed := true },
        (if o.handlers.hasComplete then [Event.completeCall] else []) ++ teardownEvents o) ∧
    ((o.complete).1).complete = ((o.complete).1, []) := by
  refine ⟨?_, ?_, ?_, ?_⟩ <;>
    simp [Observer.error, Observer.complete, Observer.unsubscribe, h]

/-- Witness for C5 at a live observer with all handlers and teardown 9
registered, with errors 7 then 8. -/
theorem error_complete_contract_witness :
    c5Observer.error 7 = ({ c5Observer with isUnsubscribed := true },
        (if c5Observer.handlers.hasError then [Event.errorCall 7] else []) ++
          teardownEvents c5Observer) ∧
    ((c5Observer.error 7).1).error 8 = ((c5Observer.error 7).1, []) ∧
    c5Observer.complete = ({ c5Observer with isUnsubscribed := true },
        (if c5Observer.handlers.hasComplete then [Event.completeCall] else []) ++
          teardownEvents c5Observer) ∧
    ((c5Observer.complete).1).complete = ((c5Observer.complete).1, []) :=
  error_complete_contract c5Observer 7 8 rfl

/-- C6: when the producer throws synchronously, `subscribe` propagates
the exception to its caller, and the trace `subscribe` produces is
exactly the events the producer itself emitted before throwing — the
core invokes no handler as a result of the throw (in particular,
teardown registration is never reached). -/
theorem subscribe_propagates_producer_throw (self : Observable T E)
    (hs : IObserverHandlers) (o1 : Observer T E) (evs : List (Event T E)) (ex : E)
    (h : self._subscribe (Observer.fresh hs) = (o1, evs, Except.error ex)) :
    self.subscribe hs = (evs, Except.error ex) := by
  unfold Observable.subscribe
  rw [h]

/-- Witness for C6: a producer that throws 42 having emitted nothing. -/
theorem subscribe_propagates_producer_throw_witness :
    throwingObservable.subscribe allHandlers = ([], Except.error 42) :=
  subscribe_propagates_producer_throw throwingObservable allHandlers
    (Observer.fresh allHandlers) [] 42 rfl

/-- C7: when the producer returns a non-function value, `subscribe`
stores `undefined` in the teardown slot, and a later `unsubscribe()` on
the resulting observer only sets the terminal flag, invoking nothing. -/
theorem subscribe_ignores_non_function_return (self : Observable T E)
    (hs : IObserverHandlers) (o1 : Observer T E) (evs : List (Event T E))
    (h : self._subscribe (Observer.fresh hs) = (o1, evs, Except.ok ProdReturn.nonFn)) :
    self.subscribe hs = (evs, Except.ok { o1 with teardownSlot := none }) ∧
    ({ o1 with teardownSlot := none } : Observer T E).unsubscribe =
      ({ o1 with teardownSlot := none, isUnsubscribed := true }, []) := by
  constructor
  · unfold Observable.subscribe
    rw [h]
    simp [Observer.setUnsubscribe, ProdReturn.toSlot]
  · rfl

/-- Witness for C7: a producer that returns `undefined`. -/
theorem subscribe_ignores_non_function_return_witness :
    (nonFnObservable.subscribe allHandlers =
      ([], Except.ok { freshNatObserver with teardownSlot := none }) ∧
    ({ freshNatObserver with teardownSlot := none } : Observer Nat Nat).unsubscribe =
      ({ freshNatObserver with teardownSlot := none, isUnsubscribed := true }, [])) :=
  subscribe_ignores_non_function_return nonFnObservable allHandlers
    freshNatObserver [] rfl

/-- C8: two subscriptions to the same observable allocate distinct
observer objects; the second run's trace and allocated observer are
exactly what they would be in an empty store (they depend on the
observable and its own handlers only, not on the first subscription);
and unsubscribing either subscription leaves the other subscription's
observer object untouched. -/
theorem subscriptions_share_no_state (self : Observable T E)
    (hs1 hs2 : IObserverHandlers) (w : List (Observer T E)) :
    (subscribeW self hs1 w).id ≠ (subscribeW self hs2 (subscribeW self hs1 w).world).id ∧
    (subscribeW self hs2 (subscribeW self hs1 w).world).trace =
      (subscribeW self hs2 []).trace ∧
    (subscribeW self hs2 (subscribeW self hs1 w).world).world[
        (subscribeW self hs2 (subscribeW self hs1 w).world).id]? =
      (subscribeW self hs2 []).world[0]? ∧
    (unsubscribeAtW (subscribeW self hs2 (subscribeW self hs1 w).world).world
        (subscribeW self hs1 w).id).1[
        (subscribeW self hs2 (subscribeW self hs1 w).world).id]? =
      (subscribeW self hs2 (subscribeW self hs1 w).world).world[
        (subscribeW self hs2 (subscribeW self hs1 w).world).id]? ∧
    (unsubscribeAtW (subscribeW self hs2 (subscribeW self hs1 w).world).world
        (subscribeW self hs2 (subscribeW self hs1 w).world).id).1[
        (subscribeW self hs1 w).id]? =
      (subscribeW self hs2 (subscribeW self hs1 w).world).world[
        (subscribeW self hs1 w).id]? := by
  obtain ⟨h1id, h1len, h1w, h1t⟩ := subscribeW_parts self hs1 w
  obtain ⟨h2id, h2len, h2w, h2t⟩ :=
    subscribeW_parts self hs2 (subscribeW self hs1 w).world
  have hne : (subscribeW self hs1 w).id ≠
      (subscribeW self hs2 (subscribeW self hs1 w).world).id := by
    rw [h1id, h2id, h1len]
    omega
  refine ⟨hne, h2t, ?_, ?_, ?_⟩
  · rw [h2w, h2id, List.getElem?_append_right (Nat.le_refl _), Nat.sub_self]
  · exact unsubscribeAtW_frame _ _ _ hne
  · exact unsubscribeAtW_frame _ _ _ hne.symm

/-- C9: `next(v)` leaves the observer's own state — the
`isUnsubscribed` flag, the handler record and the registered teardown —
unchanged, whether or not the `next` handler was invoked. -/
theorem next_preserves_observer_state (o : Observer T E) (v : T) :
    ((o.next v).1.isUnsubscribed = o.isUnsubscribed) ∧
    ((o.next v).1.handlers = o.handlers) ∧
    ((o.next v).1.teardownSlot = o.teardownSlot) := by
  rw [next_fst]
  exact ⟨rfl, rfl, rfl⟩

/-- C10: `setUnsubscribe` unconditionally overwrites the stored
teardown with its argument (including `undefined` = `none`), whatever
the previous slot and whether or not the observer is already
unsubscribed, leaves every other field unchanged, and emits no event —
in particular it never invokes a teardown at registration time. -/
theorem setUnsubscribe_overwrites_unconditionally (o : Observer T E) (fn : Option Nat) :
    o.setUnsubscribe fn =
      ({ handlers := o.handlers, isUnsubscribed := o.isUnsubscribed,
         teardownSlot := fn }, []) :=
  rfl

end Rx
